import Mathlib

/-!
Shallow embedding of the statistics-aggregation and program-calendar engine of
the Daily Lifestyle Tracker (`src/app.py`), together with theorems settling the
specified properties of `get_program_info`, `get_week_number`,
`is_strength_available`, `get_summary_stats`, the daily-entry save workflow and
the monthly week-partition view.

Modelling conventions:
* Python numbers are embedded as `ℚ` (exact arithmetic), day ordinals and week
  numbers as `ℤ`.
* A Python dict `date_str -> record` is embedded as a `List (String × DayRecord)`
  in its iteration (= insertion) order; `dict.values()` is `List.map Prod.snd`.
* A record field that may be missing from the dict, or stored as JSON `null`,
  is an `Option`; `data.get(k, 0) or 0` is `Option.getD 0`.
* A Python function that can raise is embedded with an `Option` result,
  `none` standing for the raised exception.
-/

namespace Tracker

/-- A calendar date, as `datetime.date(year, month, day)`. -/
structure Date where
  year : Int
  month : Int
  day : Int
deriving DecidableEq

/-- Gregorian leap-year test (as in Python's `calendar.isleap`). -/
def isLeap (y : Int) : Bool :=
  y % 4 == 0 && (y % 100 != 0 || y % 400 == 0)

/-- Number of days of month `m` of year `y`. -/
def daysInMonth (y m : Int) : Int :=
  if m = 2 then (if isLeap y then 29 else 28)
  else if m = 4 ∨ m = 6 ∨ m = 9 ∨ m = 11 then 30
  else 31

/-- Days before the first of month `m` in a non-leap year. -/
def daysBeforeMonth (m : Int) : Int :=
  if m ≤ 1 then 0 else if m = 2 then 31 else if m = 3 then 59 else if m = 4 then 90
  else if m = 5 then 120 else if m = 6 then 151 else if m = 7 then 181
  else if m = 8 then 212 else if m = 9 then 243 else if m = 10 then 273
  else if m = 11 then 304 else 334

/-- `date.toordinal()`: the proleptic Gregorian ordinal of a date
(`0001-01-01` is day 1).  `datetime.date` subtraction returns exactly the
difference of the two ordinals, in days. -/
def toOrdinal (d : Date) : Int :=
  365 * (d.year - 1) + (d.year - 1).fdiv 4 - (d.year - 1).fdiv 100
    + (d.year - 1).fdiv 400
    + daysBeforeMonth d.month
    + (if 2 < d.month ∧ isLeap d.year then 1 else 0)
    + d.day

/-- Split a character list at every `-`, as `str.split("-")` does for the
date strings handled here. -/
def splitDash : List Char → List (List Char)
  | [] => [[]]
  | c :: rest =>
    match splitDash rest with
    | [] => if c = '-' then [[], []] else [[c]]
    | g :: gs => if c = '-' then [] :: g :: gs else (c :: g) :: gs

/-- Decimal value of a digit string. -/
def digitsVal (cs : List Char) : Int :=
  cs.foldl (fun a c => 10 * a + (Int.ofNat c.toNat - 48)) 0

/-- A `strptime` numeric directive: between `lo` and `hi` digits, nothing
else; `none` when the characters do not match. -/
def parseNum (cs : List Char) (lo hi : Nat) : Option Int :=
  if lo ≤ cs.length ∧ cs.length ≤ hi ∧ cs.all Char.isDigit then
    some (digitsVal cs)
  else none

/-- Model of `datetime.strptime(s, "%Y-%m-%d").date()`: a 4-digit year
(`MINYEAR = 1`), a 1-2 digit month in 1..12, a 1-2 digit day valid for that
month, joined by `-` with nothing around.  `none` models the `ValueError`
raised on any malformed or out-of-range date string. -/
def parseDate (s : String) : Option Date :=
  match splitDash s.toList with
  | [ys, ms, ds] =>
    match parseNum ys 4 4, parseNum ms 1 2, parseNum ds 1 2 with
    | some y, some m, some d =>
      if 1 ≤ y ∧ 1 ≤ m ∧ m ≤ 12 ∧ 1 ≤ d ∧ d ≤ daysInMonth y m then
        some ⟨y, m, d⟩
      else none
    | _, _, _ => none
  | _ => none

/-- `get_program_info`'s fixed anchor: `date(2025, 6, 2)`.  The returned end
date is `start_date + timedelta(weeks=30)`, i.e. ordinal `start + 210`. -/
def start_date : Date := ⟨2025, 6, 2⟩

/-- Ordinal of the program end date (`start_date + timedelta(weeks=30)`). -/
def end_ordinal : Int := toOrdinal start_date + 210

/-- `get_week_number` on a `datetime.date` argument:
`(days_diff // 7) + 1` clamped by `max(1, min(30, week_num))`;
Python `//` is floor division, `Int.fdiv`. -/
def get_week_number (target_date : Date) : Int :=
  let days_diff : Int := toOrdinal target_date - toOrdinal start_date
  let week_num : Int := days_diff.fdiv 7 + 1
  max 1 (min 30 week_num)

/-- `get_week_number` on a string argument: `strptime` first (which can
raise, modelled by `none`), then the date computation. -/
def get_week_number_of_string (s : String) : Option Int :=
  (parseDate s).map get_week_number

/-- `is_strength_available`: `week_num >= 3`. -/
def is_strength_available (target_date : Date) : Bool :=
  decide (3 ≤ get_week_number target_date)

/-- One day's saved entry: the dict stored at `tracker_data[date_str]`.
A key missing from the dict (or stored as JSON `null`) is `none`. -/
structure DayRecord where
  date : String := ""
  week : Option Int := none
  treadmill_time : Option ℚ := none
  steps : Option ℚ := none
  lunch_walk_time : Option ℚ := none
  strength_training : Option Bool := none
  weight : Option ℚ := none
  blood_sugar : Option ℚ := none
  mood_energy : String := ""
deriving DecidableEq

/-- The per-record extraction used for the `weights` and `blood_sugars`
lists: keep the value only when it `is not None` and `> 0`. -/
def keepPositive (x : Option ℚ) : Option ℚ :=
  match x with
  | some v => if 0 < v then some v else none
  | none => none

/-- The `weights` list built by `get_summary_stats`: present-and-positive
values, in the input's iteration order. -/
def weights_of (rs : List DayRecord) : List ℚ :=
  rs.filterMap fun r => keepPositive r.weight

/-- The `blood_sugars` list built by `get_summary_stats`, same rule. -/
def blood_sugars_of (rs : List DayRecord) : List ℚ :=
  rs.filterMap fun r => keepPositive r.blood_sugar

/-- The summary-statistics dict returned by `get_summary_stats` on a
non-empty input. -/
structure Stats where
  total_days : ℕ
  total_treadmill : ℚ
  avg_treadmill : ℚ
  total_steps : ℚ
  avg_steps : ℚ
  total_lunch_walks : ℚ
  avg_lunch_walks : ℚ
  total_exercise_time : ℚ
  avg_exercise_time : ℚ
  strength_sessions : ℕ
  avg_weight : ℚ
  latest_weight : ℚ
  avg_blood_sugar : ℚ
  weight_change : ℚ
deriving DecidableEq

/-- Body of `get_summary_stats` over the list `data_dict.values()` (in
iteration order).  Mirrors `src/app.py` lines 68-105 field for field:
sums use `data.get(k, 0) or 0`; averages divide by `total_days` when
positive, else 0; `weights`/`blood_sugars` keep only present-and-positive
values; `latest` is `weights[-1]`; `weight_change` is
`weights[-1] - weights[0]` only when `len(weights) > 1`. -/
def statsD (rs : List DayRecord) : Stats :=
  let total_days : ℕ := rs.length
  let total_treadmill : ℚ := (rs.map fun r => r.treadmill_time.getD 0).sum
  let total_steps : ℚ := (rs.map fun r => r.steps.getD 0).sum
  let total_lunch_walks : ℚ := (rs.map fun r => r.lunch_walk_time.getD 0).sum
  let strength_sessions : ℕ := (rs.filter fun r => r.strength_training.getD false).length
  let total_exercise_time : ℚ := total_treadmill + total_steps / 100 + total_lunch_walks
  let weights : List ℚ := weights_of rs
  let blood_sugars : List ℚ := blood_sugars_of rs
  { total_days := total_days
    total_treadmill := total_treadmill
    avg_treadmill := if 0 < total_days then total_treadmill / (total_days : ℚ) else 0
    total_steps := total_steps
    avg_steps := if 0 < total_days then total_steps / (total_days : ℚ) else 0
    total_lunch_walks := total_lunch_walks
    avg_lunch_walks := if 0 < total_days then total_lunch_walks / (total_days : ℚ) else 0
    total_exercise_time := total_exercise_time
    avg_exercise_time := if 0 < total_days then total_exercise_time / (total_days : ℚ) else 0
    strength_sessions := strength_sessions
    avg_weight := if weights.isEmpty then 0 else weights.sum / (weights.length : ℚ)
    latest_weight := if weights.isEmpty then 0 else (weights.getLast?).getD 0
    avg_blood_sugar := if blood_sugars.isEmpty then 0
      else blood_sugars.sum / (blood_sugars.length : ℚ)
    weight_change := if 1 < weights.length
      then (weights.getLast?).getD 0 - (weights.head?).getD 0 else 0 }

/-- `get_summary_stats(data_dict)`.  The input is the dict as an association
list in iteration order; `if not data_dict: return {}` returns the *empty*
dict, modelled as `none` (it carries no statistics fields). -/
def get_summary_stats (data_dict : List (String × DayRecord)) : Option Stats :=
  if data_dict.isEmpty then none
  else some (statsD (data_dict.map Prod.snd))

/-- Zero-padded 2-digit field of `strftime`. -/
def pad2 (n : Int) : String :=
  if n < 10 then "0" ++ toString n else toString n

/-- Zero-padded 4-digit year field of `strftime`. -/
def pad4 (n : Int) : String :=
  if n < 10 then "000" ++ toString n
  else if n < 100 then "00" ++ toString n
  else if n < 1000 then "0" ++ toString n
  else toString n

/-- `selected_date.strftime("%Y-%m-%d")`. -/
def formatDate (d : Date) : String :=
  pad4 d.year ++ "-" ++ pad2 d.month ++ "-" ++ pad2 d.day

/-- The widget values of the daily-entry form (`show_daily_entry`). -/
structure EntryForm where
  treadmill_time : ℚ := 0
  steps : ℚ := 0
  lunch_walk_time : ℚ := 0
  strength_box : Bool := false
  weight : ℚ := 0
  blood_sugar : ℚ := 0
  mood_energy : String := ""
deriving DecidableEq

/-- The dict stored at `tracker_data[date_str]` when the daily-entry form is
submitted (`src/app.py` lines 223-235): `strength_training` is the checkbox
value only when `is_strength_available(selected_date)`, else `False`;
`weight` and `blood_sugar` are `x if x and x > 0 else None`. -/
def saveEntry (selected_date : Date) (f : EntryForm) : DayRecord :=
  { date := formatDate selected_date
    week := some (get_week_number selected_date)
    treadmill_time := some f.treadmill_time
    steps := some f.steps
    lunch_walk_time := some f.lunch_walk_time
    strength_training :=
      some (if is_strength_available selected_date then f.strength_box else false)
    weight := if f.weight ≠ 0 ∧ 0 < f.weight then some f.weight else none
    blood_sugar := if f.blood_sugar ≠ 0 ∧ 0 < f.blood_sugar then some f.blood_sugar else none
    mood_energy := f.mood_energy }

/-- The week key used by `show_monthly_summary`'s partition:
`data.get('week', get_week_number(date_str))`.  The default argument is
evaluated eagerly, so a date key that `strptime` rejects raises (modelled as
`none`) even when the `week` field is present. -/
def weekOfPair (p : String × DayRecord) : Option Int :=
  (parseDate p.1).map fun d => p.2.week.getD (get_week_number d)

/-- The week key's value on the non-raising path. -/
def weekVal (p : String × DayRecord) : Int :=
  (weekOfPair p).getD 0

/-- The distinct week keys occurring in a month's record set. -/
def weekKeys (l : List (String × DayRecord)) : List Int :=
  (l.map weekVal).dedup

/-- The partition class of week `w`: the month records whose week key is `w`,
in their original order. -/
def weekPartition (l : List (String × DayRecord)) (w : Int) :
    List (String × DayRecord) :=
  l.filter fun p => weekVal p == w

/-! ### Projection lemmas for `statsD` -/

theorem statsD_total_days (rs : List DayRecord) : (statsD rs).total_days = rs.length := rfl

theorem statsD_total_treadmill (rs : List DayRecord) :
    (statsD rs).total_treadmill = (rs.map fun r => r.treadmill_time.getD 0).sum := rfl

theorem statsD_total_steps (rs : List DayRecord) :
    (statsD rs).total_steps = (rs.map fun r => r.steps.getD 0).sum := rfl

theorem statsD_total_lunch_walks (rs : List DayRecord) :
    (statsD rs).total_lunch_walks = (rs.map fun r => r.lunch_walk_time.getD 0).sum := rfl

theorem statsD_strength_sessions (rs : List DayRecord) :
    (statsD rs).strength_sessions
      = (rs.filter fun r => r.strength_training.getD false).length := rfl

theorem statsD_total_exercise_time (rs : List DayRecord) :
    (statsD rs).total_exercise_time
      = (rs.map fun r => r.treadmill_time.getD 0).sum
          + (rs.map fun r => r.steps.getD 0).sum / 100
          + (rs.map fun r => r.lunch_walk_time.getD 0).sum := rfl

theorem statsD_avg_treadmill (rs : List DayRecord) :
    (statsD rs).avg_treadmill
      = if 0 < rs.length then (rs.map fun r => r.treadmill_time.getD 0).sum / (rs.length : ℚ)
        else 0 := rfl

theorem statsD_avg_steps (rs : List DayRecord) :
    (statsD rs).avg_steps
      = if 0 < rs.length then (rs.map fun r => r.steps.getD 0).sum / (rs.length : ℚ)
        else 0 := rfl

theorem statsD_avg_lunch_walks (rs : List DayRecord) :
    (statsD rs).avg_lunch_walks
      = if 0 < rs.length then (rs.map fun r => r.lunch_walk_time.getD 0).sum / (rs.length : ℚ)
        else 0 := rfl

theorem statsD_avg_exercise_time (rs : List DayRecord) :
    (statsD rs).avg_exercise_time
      = if 0 < rs.length then (statsD rs).total_exercise_time / (rs.length : ℚ)
        else 0 := rfl

theorem statsD_avg_weight (rs : List DayRecord) :
    (statsD rs).avg_weight
      = if (weights_of rs).isEmpty then 0
        else (weights_of rs).sum / ((weights_of rs).length : ℚ) := rfl

theorem statsD_latest_weight (rs : List DayRecord) :
    (statsD rs).latest_weight
      = if (weights_of rs).isEmpty then 0 else ((weights_of rs).getLast?).getD 0 := rfl

theorem statsD_avg_blood_sugar (rs : List DayRecord) :
    (statsD rs).avg_blood_sugar
      = if (blood_sugars_of rs).isEmpty then 0
        else (blood_sugars_of rs).sum / ((blood_sugars_of rs).length : ℚ) := rfl

theorem statsD_weight_change (rs : List DayRecord) :
    (statsD rs).weight_change
      = if 1 < (weights_of rs).length
        then ((weights_of rs).getLast?).getD 0 - ((weights_of rs).head?).getD 0
        else 0 := rfl

/-! ### The week-number computation -/

/-- `get_week_number` with Python's floor division written as Euclidean
division (they agree for the positive divisor 7). -/
theorem get_week_number_eq (d : Date) :
    get_week_number d
      = max 1 (min 30 ((toOrdinal d - toOrdinal start_date) / 7 + 1)) := by
  show max 1 (min 30 ((toOrdinal d - toOrdinal start_date).fdiv 7 + 1)) = _
  rw [Int.fdiv_eq_ediv _ (by norm_num)]

/-! ### C4: week-number formula and clamping -/

/-- C4: for every calendar date `d`, `get_week_number d` equals
`floor((d − start_date) in days / 7) + 1` clamped to `[1, 30]`; every date
before the program start maps to week 1 and every date at or after
start + 210 days maps to week 30. -/
theorem C4_week_number_formula_and_clamp (d : Date) :
    get_week_number d
        = max 1 (min 30 ((toOrdinal d - toOrdinal start_date).fdiv 7 + 1))
      ∧ (toOrdinal d < toOrdinal start_date → get_week_number d = 1)
      ∧ (toOrdinal start_date + 210 ≤ toOrdinal d → get_week_number d = 30) := by
  refine ⟨rfl, ?_, ?_⟩ <;> · intro h; rw [get_week_number_eq]; omega

/-- Witness for C4 at concrete dates: 2025-01-01 lies before the 2025-06-02
start and maps to week 1; 2026-06-01 lies at least 210 days after the start
and maps to week 30. -/
theorem C4_week_number_formula_and_clamp_witness :
    get_week_number ⟨2025, 1, 1⟩ = 1 ∧ get_week_number ⟨2026, 6, 1⟩ = 30 :=
  ⟨(C4_week_number_formula_and_clamp ⟨2025, 1, 1⟩).2.1 (by decide),
   (C4_week_number_formula_and_clamp ⟨2026, 6, 1⟩).2.2 (by decide)⟩

/-! ### C6: week-number totality -/

/-- C6 counterexample: on the malformed date string `"not-a-date"`,
`get_week_number` raises `ValueError` inside `strptime` (modelled `none`)
instead of resolving to a clamped week number, so the claim that it never
raises for any input fails. -/
theorem C6_counterexample_malformed_string_raises :
    get_week_number_of_string "not-a-date" = none := by decide

/-- C6 (amended): `get_week_number` never raises on any `date` input and on
any well-formed `YYYY-MM-DD` string, resolving every such input to a week in
`[1, 30]` by clamping; a malformed date string, however, raises a parse
error. -/
theorem C6_week_number_total_on_valid_inputs :
    (∀ d : Date, 1 ≤ get_week_number d ∧ get_week_number d ≤ 30)
      ∧ ∀ (s : String) (d : Date), parseDate s = some d →
          get_week_number_of_string s = some (get_week_number d) := by
  constructor
  · intro d
    rw [get_week_number_eq]
    omega
  · intro s d h
    simp [get_week_number_of_string, h]

/-- Witness for C6 on the well-formed string `"2025-06-09"`. -/
theorem C6_week_number_total_on_valid_inputs_witness :
    get_week_number_of_string "2025-06-09" = some (get_week_number ⟨2025, 6, 9⟩) :=
  C6_week_number_total_on_valid_inputs.2 "2025-06-09" ⟨2025, 6, 9⟩ (by decide)

/-! ### C7: strength availability -/

/-- C7: for every date `d`, `is_strength_available d` is true if and only if
`get_week_number d ≥ 3`. -/
theorem C7_strength_available_iff_week_ge_three (d : Date) :
    is_strength_available d = true ↔ 3 ≤ get_week_number d := by
  simp [is_strength_available]

/-! ### C1: empty aggregation -/

/-- C1 counterexample: on the empty input mapping `get_summary_stats` does
not return a Summary Statistics at all — `if not data_dict: return {}`
returns the empty dict, which has no `total_days` or other fields. -/
theorem C1_counterexample_empty_returns_no_stats :
    (get_summary_stats []).isSome = false := rfl

/-- C1 (amended): for the empty input mapping the aggregator never raises
and returns the *empty dict* (modelled `none`) — not a Summary Statistics
with zeroed fields; any caller reading a field of it would fail, and all
call sites guard for a non-empty input first. -/
theorem C1_empty_aggregation_returns_empty_dict :
    get_summary_stats [] = none := rfl

/-! ### C9: saved optional fields are absent or strictly positive -/

/-- C9: every record written by the daily-entry save workflow stores
`weight` and `blood_sugar` either as absent (`None`) or as a strictly
positive number: a non-positive entered value is normalized to absent at
write time. -/
theorem C9_saved_optional_fields_absent_or_positive (d : Date) (f : EntryForm) :
    ((saveEntry d f).weight = none
        ∨ ∃ w, (saveEntry d f).weight = some w ∧ 0 < w)
      ∧ ((saveEntry d f).blood_sugar = none
        ∨ ∃ b, (saveEntry d f).blood_sugar = some b ∧ 0 < b) := by
  constructor
  · by_cases h : f.weight ≠ 0 ∧ 0 < f.weight
    · refine Or.inr ⟨f.weight, ?_, h.2⟩
      show (if f.weight ≠ 0 ∧ 0 < f.weight then some f.weight else none) = some f.weight
      rw [if_pos h]
    · refine Or.inl ?_
      show (if f.weight ≠ 0 ∧ 0 < f.weight then some f.weight else none) = none
      rw [if_neg h]
  · by_cases h : f.blood_sugar ≠ 0 ∧ 0 < f.blood_sugar
    · refine Or.inr ⟨f.blood_sugar, ?_, h.2⟩
      show (if f.blood_sugar ≠ 0 ∧ 0 < f.blood_sugar then some f.blood_sugar else none)
          = some f.blood_sugar
      rw [if_pos h]
    · refine Or.inl ?_
      show (if f.blood_sugar ≠ 0 ∧ 0 < f.blood_sugar then some f.blood_sugar else none) = none
      rw [if_neg h]

/-! ### C10: no strength flag before week 3 -/

/-- C10: every record written by the daily-entry save workflow whose stored
week number is below 3 has `strength_training = False`: the entry path
forces the flag to `False` whenever strength training is unavailable. -/
theorem C10_no_strength_before_week_three (d : Date) (f : EntryForm) (w : Int)
    (hw : (saveEntry d f).week = some w) (h3 : w < 3) :
    (saveEntry d f).strength_training = some false := by
  have h1 : get_week_number d = w := by
    have h2 := hw
    simp only [saveEntry] at h2
    exact Option.some.inj h2
  have hfalse : is_strength_available d = false := by
    simp only [is_strength_available, decide_eq_false_iff_not, not_le]
    omega
  show some (if is_strength_available d then f.strength_box else false) = some false
  simp [hfalse]

/-- Witness for C10: 2025-06-02 is in week 1, so the saved record has
`strength_training = False` even though the checkbox was ticked. -/
theorem C10_no_strength_before_week_three_witness :
    (saveEntry ⟨2025, 6, 2⟩ { strength_box := true }).strength_training = some false :=
  C10_no_strength_before_week_three ⟨2025, 6, 2⟩ { strength_box := true } 1
    (by decide) (by decide)

/-! ### C3: the composite exercise-time metric -/

/-- C3: for every non-empty input, `total_exercise_time` equals
`total_treadmill + total_steps / 100 + total_lunch_walks` and
`avg_exercise_time` equals `total_exercise_time / total_days`. -/
theorem C3_composite_exercise_time (l : List (String × DayRecord)) (h : l ≠ []) :
    ∃ s, get_summary_stats l = some s
      ∧ s.total_exercise_time
          = s.total_treadmill + s.total_steps / 100 + s.total_lunch_walks
      ∧ s.avg_exercise_time = s.total_exercise_time / (s.total_days : ℚ) := by
  refine ⟨statsD (l.map Prod.snd), ?_, ?_, ?_⟩
  · cases l with
    | nil => exact absurd rfl h
    | cons a t => rfl
  · rw [statsD_total_exercise_time, statsD_total_treadmill, statsD_total_steps,
      statsD_total_lunch_walks]
  · have hl : 0 < (l.map Prod.snd).length := by
      simpa using List.length_pos.mpr h
    rw [statsD_avg_exercise_time, statsD_total_days, if_pos hl]

/-- The record set of the spec's aggregation example: two days, one with
1000 steps and one with 0, everything else absent. -/
def exampleTwoDays : List (String × DayRecord) :=
  [("2025-06-02", { steps := some 1000 }), ("2025-06-03", { steps := some 0 })]

/-- Witness for C3 on the spec's own example: `total_steps = 1000`,
`total_exercise_time = 10`, `total_days = 2`. -/
theorem C3_composite_exercise_time_witness :
    exampleTwoDays ≠ []
      ∧ (∃ s, get_summary_stats exampleTwoDays = some s
          ∧ s.total_exercise_time
              = s.total_treadmill + s.total_steps / 100 + s.total_lunch_walks
          ∧ s.avg_exercise_time = s.total_exercise_time / (s.total_days : ℚ))
      ∧ (get_summary_stats exampleTwoDays).map Stats.total_steps = some 1000
      ∧ (get_summary_stats exampleTwoDays).map Stats.total_exercise_time = some 10
      ∧ (get_summary_stats exampleTwoDays).map Stats.total_days = some 2 := by
  refine ⟨by simp [exampleTwoDays], C3_composite_exercise_time _ (by simp [exampleTwoDays]),
    ?_, ?_, ?_⟩ <;>
  · simp only [exampleTwoDays, get_summary_stats, statsD, weights_of, blood_sugars_of,
      keepPositive, List.map_cons, List.map_nil, List.filterMap_cons, List.filterMap_nil,
      List.isEmpty_cons, List.isEmpty_nil]
    norm_num

/-! ### Generic sum lemmas for permutation and partition arguments -/

theorem perm_isEmpty {α : Type} {xs ys : List α} (h : xs.Perm ys) :
    xs.isEmpty = ys.isEmpty := by
  rcases xs with _ | ⟨a, t⟩ <;> rcases ys with _ | ⟨b, u⟩ <;> simp_all

theorem sum_map_one {α : Type} (l : List α) :
    (l.map fun _ => (1 : ℕ)).sum = l.length := by
  induction l with
  | nil => rfl
  | cons a t ih =>
    simp only [List.map_cons, List.sum_cons, ih, List.length_cons]
    omega

theorem length_filter_eq_sum {α : Type} (q : α → Bool) (l : List α) :
    (l.filter q).length = (l.map fun a => if q a then (1 : ℕ) else 0).sum := by
  induction l with
  | nil => rfl
  | cons a t ih =>
    by_cases h : q a <;> simp [List.filter_cons, h, ih] <;> omega

theorem sum_map_filter_not {α M : Type} [AddCommMonoid M] (p : α → Bool) (f : α → M)
    (l : List α) :
    ((l.filter p).map f).sum + ((l.filter fun a => !p a).map f).sum = (l.map f).sum := by
  induction l with
  | nil => simp
  | cons a t ih =>
    by_cases h : p a <;>
      simp only [List.filter_cons, h, if_true, if_false, Bool.not_true, Bool.not_false,
        List.map_cons, List.sum_cons, ← ih] <;>
      abel

/-- Summing a quantity fiber by fiber over the distinct values of a key
reproduces the sum over the whole list. -/
theorem sum_fiberwise {α M : Type} [AddCommMonoid M] (key : α → Int) (f : α → M) :
    ∀ (ws : List Int) (l : List α), ws.Nodup → (∀ a ∈ l, key a ∈ ws) →
      (ws.map fun w => ((l.filter fun a => key a == w).map f).sum).sum = (l.map f).sum := by
  intro ws
  induction ws with
  | nil =>
    intro l _ hmem
    cases l with
    | nil => simp
    | cons a t => exact absurd (hmem a (List.mem_cons_self a t)) (by simp)
  | cons w ws ih =>
    intro l hnd hmem
    have hnd' : ws.Nodup := List.Nodup.of_cons hnd
    have hwmem : w ∉ ws := (List.nodup_cons.mp hnd).1
    have hrest : ∀ w' ∈ ws, (l.filter fun a => key a == w')
        = ((l.filter fun a => !(key a == w)).filter fun a => key a == w') := by
      intro w' hw'
      rw [List.filter_filter]
      apply List.filter_congr
      intro a _
      by_cases hkey : key a = w'
      · have hne : w' ≠ w := fun e => hwmem (e ▸ hw')
        simp [hkey, hne]
      · simp [hkey]
    have hmemrest : ∀ a ∈ (l.filter fun a => !(key a == w)), key a ∈ ws := by
      intro a ha
      have ha1 : a ∈ l := List.mem_of_mem_filter ha
      have ha2 : (!(key a == w)) = true := (List.mem_filter.mp ha).2
      rcases List.mem_cons.mp (hmem a ha1) with hcase | hcase
      · exact absurd hcase (by simpa using ha2)
      · exact hcase
    have h2 : (ws.map fun w' => ((l.filter fun a => key a == w').map f).sum)
        = ws.map fun w' =>
            (((l.filter fun a => !(key a == w)).filter fun a => key a == w').map f).sum := by
      apply List.map_congr_left
      intro w' hw'
      rw [hrest w' hw']
    simp only [List.map_cons, List.sum_cons]
    rw [h2, ih _ hnd' hmemrest]
    exact sum_map_filter_not _ f l

theorem sum_map_add3 (ws : List Int) (A B C : Int → ℚ) :
    (ws.map fun w => A w + B w + C w).sum
      = (ws.map A).sum + (ws.map B).sum + (ws.map C).sum := by
  induction ws with
  | nil => simp
  | cons w t ih =>
    simp only [List.map_cons, List.sum_cons, ih]
    ring

theorem sum_map_div (ws : List Int) (B : Int → ℚ) (c : ℚ) :
    (ws.map fun w => B w / c).sum = (ws.map B).sum / c := by
  induction ws with
  | nil => simp
  | cons w t ih =>
    simp only [List.map_cons, List.sum_cons, ih]
    ring

theorem sum_map_linear3 {α : Type} (f1 f2 f3 : α → ℚ) (rs : List α) :
    (rs.map f1).sum + (rs.map f2).sum / 100 + (rs.map f3).sum
      = (rs.map fun a => f1 a + f2 a / 100 + f3 a).sum := by
  induction rs with
  | nil => simp
  | cons a t ih =>
    simp only [List.map_cons, List.sum_cons, ← ih]
    ring

/-! ### C2: determinism and (partial) order-independence -/

/-- All fields of `statsD` except `latest_weight` and `weight_change` are
invariant under permutation of the input records. -/
theorem statsD_perm_fields (rs₁ rs₂ : List DayRecord) (h : rs₁.Perm rs₂) :
    (statsD rs₁).total_days = (statsD rs₂).total_days
  ∧ (statsD rs₁).total_treadmill = (statsD rs₂).total_treadmill
  ∧ (statsD rs₁).avg_treadmill = (statsD rs₂).avg_treadmill
  ∧ (statsD rs₁).total_steps = (statsD rs₂).total_steps
  ∧ (statsD rs₁).avg_steps = (statsD rs₂).avg_steps
  ∧ (statsD rs₁).total_lunch_walks = (statsD rs₂).total_lunch_walks
  ∧ (statsD rs₁).avg_lunch_walks = (statsD rs₂).avg_lunch_walks
  ∧ (statsD rs₁).total_exercise_time = (statsD rs₂).total_exercise_time
  ∧ (statsD rs₁).avg_exercise_time = (statsD rs₂).avg_exercise_time
  ∧ (statsD rs₁).strength_sessions = (statsD rs₂).strength_sessions
  ∧ (statsD rs₁).avg_weight = (statsD rs₂).avg_weight
  ∧ (statsD rs₁).avg_blood_sugar = (statsD rs₂).avg_blood_sugar := by
  have hlen := h.length_eq
  have htr := (h.map fun r => r.treadmill_time.getD 0).sum_eq
  have hst := (h.map fun r => r.steps.getD 0).sum_eq
  have hlw := (h.map fun r => r.lunch_walk_time.getD 0).sum_eq
  have hfil := (h.filter fun r => r.strength_training.getD false).length_eq
  have hwp : (weights_of rs₁).Perm (weights_of rs₂) := h.filterMap _
  have hbp : (blood_sugars_of rs₁).Perm (blood_sugars_of rs₂) := h.filterMap _
  refine ⟨?_, ?_, ?_, ?_, ?_, ?_, ?_, ?_, ?_, ?_, ?_, ?_⟩
  · rw [statsD_total_days, statsD_total_days, hlen]
  · rw [statsD_total_treadmill, statsD_total_treadmill, htr]
  · rw [statsD_avg_treadmill, statsD_avg_treadmill, hlen, htr]
  · rw [statsD_total_steps, statsD_total_steps, hst]
  · rw [statsD_avg_steps, statsD_avg_steps, hlen, hst]
  · rw [statsD_total_lunch_walks, statsD_total_lunch_walks, hlw]
  · rw [statsD_avg_lunch_walks, statsD_avg_lunch_walks, hlen, hlw]
  · rw [statsD_total_exercise_time, statsD_total_exercise_time, htr, hst, hlw]
  · rw [statsD_avg_exercise_time, statsD_avg_exercise_time, hlen,
      statsD_total_exercise_time, statsD_total_exercise_time, htr, hst, hlw]
  · rw [statsD_strength_sessions, statsD_strength_sessions, hfil]
  · rw [statsD_avg_weight, statsD_avg_weight, perm_isEmpty hwp, hwp.sum_eq, hwp.length_eq]
  · rw [statsD_avg_blood_sugar, statsD_avg_blood_sugar, perm_isEmpty hbp, hbp.sum_eq,
      hbp.length_eq]

/-- Two-record month, earlier date first: the weights appear as `[70, 68]`. -/
def permA : List (String × DayRecord) :=
  [("2025-06-02", { weight := some 70 }), ("2025-06-03", { weight := some 68 })]

/-- The same date-to-record pairs with the later date inserted first: the
weights appear as `[68, 70]`. -/
def permB : List (String × DayRecord) :=
  [("2025-06-03", { weight := some 68 }), ("2025-06-02", { weight := some 70 })]

/-- C2 counterexample: `permA` and `permB` hold exactly the same
date-to-record pairs, yet `get_summary_stats` returns different Summary
Statistics: `latest_weight` is the last weight in *insertion* order (70 on
`permB`), not the last in date-ascending order (which is 68). -/
theorem C2_counterexample_insertion_order_dependence :
    permA.Perm permB
      ∧ get_summary_stats permA ≠ get_summary_stats permB
      ∧ (get_summary_stats permA).map Stats.latest_weight = some 68
      ∧ (get_summary_stats permB).map Stats.latest_weight = some 70
      ∧ (get_summary_stats permB).map Stats.weight_change = some 2 := by
  refine ⟨List.Perm.swap _ _ _, ?_, ?_, ?_, ?_⟩ <;>
  · simp only [permA, permB, get_summary_stats, statsD, weights_of, blood_sugars_of,
      keepPositive, List.map_cons, List.map_nil, List.filterMap_cons, List.filterMap_nil,
      List.isEmpty_cons, List.isEmpty_nil]
    norm_num

/-- C2 (amended): the aggregator is deterministic, and every output field
except `latest_weight` and `weight_change` is order-independent (equal on
any two inputs holding the same date-to-record pairs); `latest_weight` and
`weight_change`, however, use the first and last present weight in the
input's *iteration (insertion) order*, not in date-ascending order. -/
theorem C2_aggregator_order_independence (l₁ l₂ : List (String × DayRecord))
    (h : l₁.Perm l₂) :
    (get_summary_stats l₁).map Stats.total_days
        = (get_summary_stats l₂).map Stats.total_days
  ∧ (get_summary_stats l₁).map Stats.total_treadmill
        = (get_summary_stats l₂).map Stats.total_treadmill
  ∧ (get_summary_stats l₁).map Stats.avg_treadmill
        = (get_summary_stats l₂).map Stats.avg_treadmill
  ∧ (get_summary_stats l₁).map Stats.total_steps
        = (get_summary_stats l₂).map Stats.total_steps
  ∧ (get_summary_stats l₁).map Stats.avg_steps
        = (get_summary_stats l₂).map Stats.avg_steps
  ∧ (get_summary_stats l₁).map Stats.total_lunch_walks
        = (get_summary_stats l₂).map Stats.total_lunch_walks
  ∧ (get_summary_stats l₁).map Stats.avg_lunch_walks
        = (get_summary_stats l₂).map Stats.avg_lunch_walks
  ∧ (get_summary_stats l₁).map Stats.total_exercise_time
        = (get_summary_stats l₂).map Stats.total_exercise_time
  ∧ (get_summary_stats l₁).map Stats.avg_exercise_time
        = (get_summary_stats l₂).map Stats.avg_exercise_time
  ∧ (get_summary_stats l₁).map Stats.strength_sessions
        = (get_summary_stats l₂).map Stats.strength_sessions
  ∧ (get_summary_stats l₁).map Stats.avg_weight
        = (get_summary_stats l₂).map Stats.avg_weight
  ∧ (get_summary_stats l₁).map Stats.avg_blood_sugar
        = (get_summary_stats l₂).map Stats.avg_blood_sugar := by
  have hv : (l₁.map Prod.snd).Perm (l₂.map Prod.snd) := h.map _
  have hf := statsD_perm_fields _ _ hv
  cases l₁ with
  | nil =>
    have h2 : l₂ = [] := by simpa using h.symm
    subst h2
    exact ⟨rfl, rfl, rfl, rfl, rfl, rfl, rfl, rfl, rfl, rfl, rfl, rfl⟩
  | cons p t =>
    cases l₂ with
    | nil => exact (List.cons_ne_nil p t (by simpa using h)).elim
    | cons q u =>
      have e1 : get_summary_stats (p :: t) = some (statsD ((p :: t).map Prod.snd)) := rfl
      have e2 : get_summary_stats (q :: u) = some (statsD ((q :: u).map Prod.snd)) := rfl
      rw [e1, e2]
      simp only [Option.map_some', Option.some.injEq]
      exact hf

/-- Witness for C2 on the permuted pair `permA`, `permB`. -/
theorem C2_aggregator_order_independence_witness :
    (get_summary_stats permA).map Stats.total_days
      = (get_summary_stats permB).map Stats.total_days :=
  (C2_aggregator_order_independence permA permB (List.Perm.swap _ _ _)).1

/-! ### C5: weight and blood-sugar statistics use present-and-positive values -/

/-- Replacing one record of the input by a record that agrees on the four
aggregated fields and on the present-and-positive extraction of `weight` and
`blood_sugar` leaves `statsD` unchanged. -/
theorem statsD_middle_congr (l₁ l₂ : List DayRecord) (x y : DayRecord)
    (h1 : x.treadmill_time = y.treadmill_time)
    (h2 : x.steps = y.steps)
    (h3 : x.lunch_walk_time = y.lunch_walk_time)
    (h4 : x.strength_training = y.strength_training)
    (h5 : keepPositive x.weight = keepPositive y.weight)
    (h6 : keepPositive x.blood_sugar = keepPositive y.blood_sugar) :
    statsD (l₁ ++ x :: l₂) = statsD (l₁ ++ y :: l₂) := by
  have e1 : ((l₁ ++ x :: l₂).map fun r => r.treadmill_time.getD 0)
      = ((l₁ ++ y :: l₂).map fun r => r.treadmill_time.getD 0) := by
    simp [h1]
  have e2 : ((l₁ ++ x :: l₂).map fun r => r.steps.getD 0)
      = ((l₁ ++ y :: l₂).map fun r => r.steps.getD 0) := by
    simp [h2]
  have e3 : ((l₁ ++ x :: l₂).map fun r => r.lunch_walk_time.getD 0)
      = ((l₁ ++ y :: l₂).map fun r => r.lunch_walk_time.getD 0) := by
    simp [h3]
  have e4 : ((l₁ ++ x :: l₂).filter fun r => r.strength_training.getD false).length
      = ((l₁ ++ y :: l₂).filter fun r => r.strength_training.getD false).length := by
    rw [List.filter_append, List.filter_append, List.filter_cons, List.filter_cons, h4]
    by_cases hc : y.strength_training.getD false = true <;> simp [hc]
  have e5 : weights_of (l₁ ++ x :: l₂) = weights_of (l₁ ++ y :: l₂) := by
    simp only [weights_of, List.filterMap_append, List.filterMap_cons, h5]
  have e6 : blood_sugars_of (l₁ ++ x :: l₂) = blood_sugars_of (l₁ ++ y :: l₂) := by
    simp only [blood_sugars_of, List.filterMap_append, List.filterMap_cons, h6]
  have elen : (l₁ ++ x :: l₂).length = (l₁ ++ y :: l₂).length := by
    simp
  simp only [statsD, e1, e2, e3, e4, e5, e6, elen]

/-- C5: weight and blood-sugar statistics are computed only over the records
whose optional field is present and strictly positive — replacing a
non-positive stored value by an absent one changes nothing at all; their
averages divide by the count of present values (not `total_days`); and
`weight_change` is last-minus-first of the present weights only when more
than one is present, else 0. -/
theorem C5_present_positive_only (l₁ l₂ : List DayRecord) (r : DayRecord)
    (w : ℚ) (hw : w ≤ 0) (b : ℚ) (hb : b ≤ 0) (rs : List DayRecord) :
    statsD (l₁ ++ { r with weight := some w } :: l₂)
        = statsD (l₁ ++ { r with weight := none } :: l₂)
      ∧ statsD (l₁ ++ { r with blood_sugar := some b } :: l₂)
        = statsD (l₁ ++ { r with blood_sugar := none } :: l₂)
      ∧ ((statsD rs).avg_weight
          = if (weights_of rs).isEmpty then 0
            else (weights_of rs).sum / ((weights_of rs).length : ℚ))
      ∧ ((statsD rs).avg_blood_sugar
          = if (blood_sugars_of rs).isEmpty then 0
            else (blood_sugars_of rs).sum / ((blood_sugars_of rs).length : ℚ))
      ∧ ((weights_of rs).length ≤ 1 → (statsD rs).weight_change = 0)
      ∧ (1 < (weights_of rs).length →
          (statsD rs).weight_change
            = ((weights_of rs).getLast?).getD 0 - ((weights_of rs).head?).getD 0) := by
  have hwn : ¬(0 < w) := not_lt.mpr hw
  have hbn : ¬(0 < b) := not_lt.mpr hb
  refine ⟨?_, ?_, statsD_avg_weight rs, statsD_avg_blood_sugar rs, ?_, ?_⟩
  · exact statsD_middle_congr l₁ l₂ _ _ rfl rfl rfl rfl (by simp [keepPositive, hwn]) rfl
  · exact statsD_middle_congr l₁ l₂ _ _ rfl rfl rfl rfl rfl (by simp [keepPositive, hbn])
  · intro hlen
    rw [statsD_weight_change, if_neg (by omega)]
  · intro hlen
    rw [statsD_weight_change, if_pos hlen]

/-- Witness for C5: a record with `weight = 0` aggregates identically to the
same record with `weight` absent. -/
theorem C5_present_positive_only_witness :
    statsD ([] ++ { ({} : DayRecord) with weight := some 0 } :: [])
      = statsD ([] ++ { ({} : DayRecord) with weight := none } :: []) :=
  (C5_present_positive_only [] [] {} 0 (le_refl 0) 0 (le_refl 0) []).1

/-! ### C8: partition-then-sum consistency of the monthly view -/

/-- C8: partitioning a month's record set by each record's week key (the
stored `week` field, defaulting to the computed week number), aggregating
each partition, and summing the per-partition totals reproduces exactly the
totals of a single aggregation over the whole set; and each partition is
non-empty, so `get_summary_stats` returns genuine statistics for it. -/
theorem C8_month_partition_sum_consistency (l : List (String × DayRecord))
    (hk : ∀ p ∈ l, (weekOfPair p).isSome = true) :
    (((weekKeys l).map fun w =>
        (statsD ((weekPartition l w).map Prod.snd)).total_days).sum
      = (statsD (l.map Prod.snd)).total_days)
  ∧ (((weekKeys l).map fun w =>
        (statsD ((weekPartition l w).map Prod.snd)).total_treadmill).sum
      = (statsD (l.map Prod.snd)).total_treadmill)
  ∧ (((weekKeys l).map fun w =>
        (statsD ((weekPartition l w).map Prod.snd)).total_steps).sum
      = (statsD (l.map Prod.snd)).total_steps)
  ∧ (((weekKeys l).map fun w =>
        (statsD ((weekPartition l w).map Prod.snd)).total_lunch_walks).sum
      = (statsD (l.map Prod.snd)).total_lunch_walks)
  ∧ (((weekKeys l).map fun w =>
        (statsD ((weekPartition l w).map Prod.snd)).total_exercise_time).sum
      = (statsD (l.map Prod.snd)).total_exercise_time)
  ∧ (((weekKeys l).map fun w =>
        (statsD ((weekPartition l w).map Prod.snd)).strength_sessions).sum
      = (statsD (l.map Prod.snd)).strength_sessions)
  ∧ ∀ w ∈ weekKeys l, get_summary_stats (weekPartition l w)
      = some (statsD ((weekPartition l w).map Prod.snd)) := by
  have hnd : (weekKeys l).Nodup := List.nodup_dedup _
  have hmem : ∀ p ∈ l, weekVal p ∈ weekKeys l := fun p hp =>
    List.mem_dedup.mpr (List.mem_map_of_mem _ hp)
  have mainQ : ∀ f : (String × DayRecord) → ℚ,
      ((weekKeys l).map fun w => ((weekPartition l w).map f).sum).sum = (l.map f).sum :=
    fun f => sum_fiberwise weekVal f (weekKeys l) l hnd hmem
  have mainN : ∀ f : (String × DayRecord) → ℕ,
      ((weekKeys l).map fun w => ((weekPartition l w).map f).sum).sum = (l.map f).sum :=
    fun f => sum_fiberwise weekVal f (weekKeys l) l hnd hmem
  refine ⟨?_, ?_, ?_, ?_, ?_, ?_, ?_⟩
  · simp only [statsD_total_days, List.length_map]
    simp only [← sum_map_one]
    exact mainN _
  · simp only [statsD_total_treadmill, List.map_map]
    exact mainQ _
  · simp only [statsD_total_steps, List.map_map]
    exact mainQ _
  · simp only [statsD_total_lunch_walks, List.map_map]
    exact mainQ _
  · simp only [statsD_total_exercise_time, List.map_map, sum_map_linear3]
    exact mainQ _
  · simp only [statsD_strength_sessions, length_filter_eq_sum, List.map_map]
    exact mainN _
  · intro w hw
    obtain ⟨p, hp, hpw⟩ := List.mem_map.mp (List.mem_dedup.mp hw)
    have hmemp : p ∈ weekPartition l w := List.mem_filter.mpr ⟨hp, by simp [hpw]⟩
    cases hpart : weekPartition l w with
    | nil => rw [hpart] at hmemp; simp at hmemp
    | cons a t => rfl

/-- A small month record set: one week-1 record and two week-2 records. -/
def sampleMonth : List (String × DayRecord) :=
  [("2025-06-02", { week := some 1, treadmill_time := some 30 }),
   ("2025-06-09", { week := some 2, steps := some 1000 }),
   ("2025-06-10", { week := some 2, lunch_walk_time := some 15 })]

/-- Witness for C8 on `sampleMonth`. -/
theorem C8_month_partition_sum_consistency_witness :
    ((weekKeys sampleMonth).map fun w =>
        (statsD ((weekPartition sampleMonth w).map Prod.snd)).total_days).sum
      = (statsD (sampleMonth.map Prod.snd)).total_days :=
  (C8_month_partition_sum_consistency sampleMonth (by decide)).1

end Tracker
